import Mathlib

/-!
Verification of the scene-parameter resolution logic of the StoryboardTo3D
Unreal Engine editor plugin (`Source/StoryboardTo3D/Private/StoryboardPythonBridge.cpp`).

The plugin's only branching business logic maps a storyboard panel's
descriptive attributes (index, shot type, character count, object list, mood,
time of day) to concrete placement and lighting parameters.  We embed that
logic shallowly: machine floats become exact rationals (every constant and
every arithmetic operation appearing in the code is exact in binary floating
point at these magnitudes, so the rational model agrees with the float
computation), `int32` fields become `Int`, and the ambient random generator
`FMath::RandRange` becomes an explicit function parameter indexed by the call
counter.  Engine side effects (spawning actors, lights, cameras) are recorded
as data in a `ResolvedScene` / `SpawnedLight` record instead of being
performed.
-/

namespace StoryboardTo3D

/-- Embedding of Unreal's `FVector` (three float components) over ℚ. -/
structure FVector where
  x : ℚ
  y : ℚ
  z : ℚ
deriving DecidableEq, Repr

instance : Add FVector := ⟨fun a b => ⟨a.x + b.x, a.y + b.y, a.z + b.z⟩⟩
instance : Sub FVector := ⟨fun a b => ⟨a.x - b.x, a.y - b.y, a.z - b.z⟩⟩

theorem FVector.add_def (a b : FVector) :
    a + b = ⟨a.x + b.x, a.y + b.y, a.z + b.z⟩ := rfl

theorem FVector.sub_def (a b : FVector) :
    a - b = ⟨a.x - b.x, a.y - b.y, a.z - b.z⟩ := rfl

/-- Embedding of Unreal's `FLinearColor` (we track the r,g,b channels the
code sets; alpha is never touched). -/
structure FLinearColor where
  r : ℚ
  g : ℚ
  b : ℚ
deriving DecidableEq, Repr

/-- `FLinearColor::White`. -/
def FLinearColor.White : FLinearColor := ⟨1, 1, 1⟩

/-- Embedding of `FStoryboardPanel` from `StoryboardPythonBridge.h`
(`ImagePath`, `Index`, `ShotType`, `NumCharacters`, `Objects`, `Mood`,
`TimeOfDay`). -/
structure FStoryboardPanel where
  ImagePath : String
  Index : Int
  ShotType : String
  NumCharacters : Int
  Objects : List String
  Mood : String
  TimeOfDay : String
deriving DecidableEq, Repr

/-- A random source standing for `FMath::RandRange(Min, Max)`: the first
argument counts the calls made so far, the remaining two are the bounds
passed at that call. -/
def RandSource : Type := Nat → Int → Int → Int

/-- A random source is valid when every draw lies within the inclusive
bounds passed to it, as `FMath::RandRange` guarantees. -/
def ValidRand (rng : RandSource) : Prop :=
  ∀ (k : Nat) (lo hi : Int), lo ≤ hi → lo ≤ rng k lo hi ∧ rng k lo hi ≤ hi

/-- `CreateSceneFromPanel`, line 45:
`FVector SceneCenter = FVector(Panel.Index * 2000.0f, 0, 0);` -/
def sceneCenter (Panel : FStoryboardPanel) : FVector :=
  ⟨(Panel.Index : ℚ) * 2000, 0, 0⟩

/-- `CreateSceneFromPanel`, line 50, the location of the `i`-th character:
`SceneCenter + FVector(0, i * 150.0f - (Panel.NumCharacters - 1) * 75.0f, 0)`.
`(Panel.NumCharacters - 1)` is `int32` arithmetic, promoted to float by the
multiplication. -/
def charLocation (Panel : FStoryboardPanel) (i : Nat) : FVector :=
  sceneCenter Panel + ⟨0, (i : ℚ) * 150 - ((Panel.NumCharacters - 1 : Int) : ℚ) * 75, 0⟩

/-- The loop `for (int32 i = 0; i < Panel.NumCharacters; i++)` placing one
cylinder per character; it runs `NumCharacters` times (zero times when the
count is not positive). -/
def charLocations (Panel : FStoryboardPanel) : List FVector :=
  (List.range Panel.NumCharacters.toNat).map (charLocation Panel)

/-- `CreateSceneFromPanel`, line 58, the location of the `j`-th object:
`SceneCenter + FVector(FMath::RandRange(-500, 500), FMath::RandRange(-500, 500), 0)`.
The two `RandRange` calls for object `j` are draws `2*j` and `2*j+1`. -/
def objectLocation (Panel : FStoryboardPanel) (rng : RandSource) (j : Nat) : FVector :=
  sceneCenter Panel + ⟨(rng (2 * j) (-500) 500 : ℚ), (rng (2 * j + 1) (-500) 500 : ℚ), 0⟩

/-- The loop `for (const FString& ObjectName : Panel.Objects)` placing one
cube per object; only the position in the list matters. -/
def objectLocations (Panel : FStoryboardPanel) (rng : RandSource) : List FVector :=
  (List.range Panel.Objects.length).map (objectLocation Panel rng)

/-- `CreateSceneFromPanel`, lines 63–67:
`float CameraDistance = 500.0f;` overwritten to `200` when
`Panel.ShotType == "close"`, to `1000` when `== "wide"`. -/
def cameraDistance (ShotType : String) : ℚ :=
  if ShotType = "close" then 200
  else if ShotType = "wide" then 1000
  else 500

/-- `CreateSceneFromPanel`, line 69:
`FVector CameraLocation = SceneCenter + FVector(-CameraDistance, 0, 160);` -/
def cameraLocation (Panel : FStoryboardPanel) : FVector :=
  sceneCenter Panel + ⟨-(cameraDistance Panel.ShotType), 0, 160⟩

/-- `CreateSceneFromPanel`, line 70: the direction vector
`SceneCenter - CameraLocation` whose `.Rotation()` becomes the camera's
rotation.  We record the direction itself; the rotator is a function of it. -/
def cameraFacing (Panel : FStoryboardPanel) : FVector :=
  sceneCenter Panel - cameraLocation Panel

/-- The lighting parameters resolved inside `SetupLighting`
(lines 153–175): a colour and an intensity. -/
structure LightParams where
  color : FLinearColor
  intensity : ℚ
deriving DecidableEq, Repr

/-- `SetupLighting`, lines 153–175: `LightColor` and `Intensity` start at
`White` / `3.0`, are reassigned by the time-of-day branch, then `Intensity`
is scaled by the mood branch. -/
def resolveLighting (Mood TimeOfDay : String) : LightParams :=
  let base : FLinearColor × ℚ :=
    if TimeOfDay = "night" then (⟨0.4, 0.5, 0.7⟩, 1)
    else if TimeOfDay = "dawn" ∨ TimeOfDay = "dusk" then (⟨1, 0.6, 0.3⟩, 2)
    else (FLinearColor.White, 3)
  let intensity : ℚ :=
    if Mood = "dark" ∨ Mood = "moody" then base.2 * 0.5
    else if Mood = "bright" ∨ Mood = "cheerful" then base.2 * 1.5
    else base.2
  ⟨base.1, intensity⟩

/-- A point light as `SetupLighting` spawns and configures it
(lines 177–186): spawn location, the intensity passed to `SetIntensity`,
and the colour passed to `SetLightColor`. -/
structure SpawnedLight where
  location : FVector
  appliedIntensity : ℚ
  appliedColor : FLinearColor
deriving DecidableEq, Repr

/-- `SetupLighting`, lines 177–186: one key light is spawned at
`FVector(-500, -500, 500)`; `SetIntensity(Intensity * 1000.0f)` and
`SetLightColor(LightColor)` are applied to it. -/
def setupLighting (Mood TimeOfDay : String) : List SpawnedLight :=
  let p := resolveLighting Mood TimeOfDay
  [⟨⟨-500, -500, 500⟩, p.intensity * 1000, p.color⟩]

/-- All scene parameters `CreateSceneFromPanel` resolves from a panel. -/
structure ResolvedScene where
  center : FVector
  characterLocations : List FVector
  objLocations : List FVector
  camDistance : ℚ
  camLocation : FVector
  camFacing : FVector
  focalLength : ℚ
  lights : List SpawnedLight
deriving DecidableEq, Repr

/-- `CreateSceneFromPanel` (lines 33–75) as a record of the parameters it
resolves and the actors it configures.  The focal length is the literal
`50.0f` passed to `CreateCamera` at line 71. -/
def createSceneFromPanel (Panel : FStoryboardPanel) (rng : RandSource) : ResolvedScene :=
  { center := sceneCenter Panel
    characterLocations := charLocations Panel
    objLocations := objectLocations Panel rng
    camDistance := cameraDistance Panel.ShotType
    camLocation := cameraLocation Panel
    camFacing := cameraFacing Panel
    focalLength := 50
    lights := setupLighting Panel.Mood Panel.TimeOfDay }

/-- The `%02d` conversion of `FString::Printf`: decimal representation,
zero-padded to a minimum field width of two. -/
def pad2 (n : Int) : String :=
  let s := toString n
  if s.length = 1 then "0" ++ s else s

/-- `CreateSequenceForPanel`, line 80:
`FString::Printf(TEXT("Panel_%02d_Sequence"), Panel.Index)`. -/
def sequenceName (Panel : FStoryboardPanel) : String :=
  "Panel_" ++ pad2 Panel.Index ++ "_Sequence"

/-- `CreateSequenceForPanel`, line 81:
`TEXT("/Game/StoryboardSequences/") + SequenceName`. -/
def packagePath (Panel : FStoryboardPanel) : String :=
  "/Game/StoryboardSequences/" ++ sequenceName Panel

/-- Stand-in for `UTexture2D*`: `none` is a null pointer. -/
structure UTexture2D where
  id : Nat
deriving DecidableEq, Repr

/-- `SaveTextureToFile` (lines 231–239): returns `false` when the texture
pointer is null, and `false` in every other case as well. -/
def SaveTextureToFile (Texture : Option UTexture2D) (FilePath : String) : Bool :=
  if Texture.isNone then false
  else false

/-- `LoadTextureFromFile` (lines 241–246): always returns `nullptr`. -/
def LoadTextureFromFile (FilePath : String) : Option UTexture2D :=
  none

/-! ### Spec-side definitions

The spec describes the lighting intensity as a product
`base(time-of-day) × multiplier(mood)`.  The following three definitions are
written from the spec's words, to be compared with `resolveLighting`, which
is written from the source. -/

/-- Modelled from the spec: base intensity by time of day
(`night → 1.0`, `dawn`/`dusk → 2.0`, else `3.0`). -/
def specBaseIntensity (TimeOfDay : String) : ℚ :=
  if TimeOfDay = "night" then 1
  else if TimeOfDay = "dawn" ∨ TimeOfDay = "dusk" then 2
  else 3

/-- Modelled from the spec: base colour by time of day
(`night → (0.4,0.5,0.7)`, `dawn`/`dusk → (1.0,0.6,0.3)`, else white). -/
def specBaseColor (TimeOfDay : String) : FLinearColor :=
  if TimeOfDay = "night" then ⟨0.4, 0.5, 0.7⟩
  else if TimeOfDay = "dawn" ∨ TimeOfDay = "dusk" then ⟨1, 0.6, 0.3⟩
  else FLinearColor.White

/-- Modelled from the spec: mood multiplier
(`dark`/`moody → 0.5`, `bright`/`cheerful → 1.5`, else `1.0`). -/
def specMoodMultiplier (Mood : String) : ℚ :=
  if Mood = "dark" ∨ Mood = "moody" then 0.5
  else if Mood = "bright" ∨ Mood = "cheerful" then 1.5
  else 1

/-! ### Claims -/

/-- C1: for every shot-type string, the camera distance resolved by
`CreateSceneFromPanel` is 200 for `"close"`, 1000 for `"wide"`, and 500 for
every other string, decided by string equality only and never failing (the
resolver is a total function). -/
theorem camera_distance_from_shot_type (Panel : FStoryboardPanel) (rng : RandSource)
    (h1 : Panel.ShotType ≠ "close") (h2 : Panel.ShotType ≠ "wide") :
    (createSceneFromPanel Panel rng).camDistance = 500 ∧
    (∀ P : FStoryboardPanel, P.ShotType = "close" →
      (createSceneFromPanel P rng).camDistance = 200) ∧
    (∀ P : FStoryboardPanel, P.ShotType = "wide" →
      (createSceneFromPanel P rng).camDistance = 1000) := by
  refine ⟨?_, ?_, ?_⟩
  · simp [createSceneFromPanel, cameraDistance, h1, h2]
  · intro P hP
    simp [createSceneFromPanel, cameraDistance, hP]
  · intro P hP
    simp [createSceneFromPanel, cameraDistance, hP]

/-- Witness for C1 at the unrecognized shot type `"medium"`. -/
theorem camera_distance_from_shot_type_witness :
    (createSceneFromPanel ⟨"", 0, "medium", 0, [], "", ""⟩ (fun _ lo _ => lo)).camDistance = 500 :=
  (camera_distance_from_shot_type ⟨"", 0, "medium", 0, [], "", ""⟩ (fun _ lo _ => lo)
    (by decide) (by decide)).1

/-- C2: for every (time-of-day, mood) pair, the intensity resolved by
`SetupLighting` equals `base(time-of-day) × multiplier(mood)` with base
1.0/colour (0.4,0.5,0.7) for night, 2.0/(1.0,0.6,0.3) for dawn or dusk,
3.0/white otherwise, and multiplier 0.5 for dark/moody, 1.5 for
bright/cheerful, 1.0 otherwise. -/
theorem lighting_intensity_is_base_times_multiplier (Mood TimeOfDay : String) :
    (resolveLighting Mood TimeOfDay).intensity
      = specBaseIntensity TimeOfDay * specMoodMultiplier Mood ∧
    (resolveLighting Mood TimeOfDay).color = specBaseColor TimeOfDay := by
  unfold resolveLighting specBaseIntensity specBaseColor specMoodMultiplier
  constructor <;> split_ifs <;> norm_num

/-- C6: `CreateSequenceForPanel` names the sequence
`Panel_<2-digit index>_Sequence` under `/Game/StoryboardSequences/`;
panel index 3 yields `Panel_03_Sequence`. -/
theorem sequence_naming_convention (Panel : FStoryboardPanel) :
    sequenceName Panel = "Panel_" ++ pad2 Panel.Index ++ "_Sequence" ∧
    packagePath Panel = "/Game/StoryboardSequences/" ++ sequenceName Panel ∧
    (∀ P : FStoryboardPanel, P.Index = 3 → sequenceName P = "Panel_03_Sequence") := by
  refine ⟨rfl, rfl, ?_⟩
  intro P hP
  simp only [sequenceName, pad2, hP]
  decide

/-- C7: `SaveTextureToFile` returns false for every texture and path, and
`LoadTextureFromFile` returns null for every path: both stubs
unconditionally report failure/absence. -/
theorem texture_stubs_always_fail (Texture : Option UTexture2D) (FilePath : String) :
    SaveTextureToFile Texture FilePath = false ∧
    LoadTextureFromFile FilePath = none := by
  constructor
  · unfold SaveTextureToFile
    split <;> rfl
  · rfl

/-- The `i`-th character's offset from the scene center along the placement
axis (`y`) equals `i * 150 - (NumCharacters - 1) * 75`. -/
theorem charLocation_offset (Panel : FStoryboardPanel) (i : Nat) :
    (charLocation Panel i).y - (sceneCenter Panel).y
      = (i : ℚ) * 150 - ((Panel.NumCharacters : ℚ) - 1) * 75 := by
  simp only [charLocation, sceneCenter, FVector.add_def]
  push_cast
  ring

/-- C4: for `N ≥ 1` characters the offsets along the placement axis are
`i × 150 − (N−1) × 150/2` for `i = 0..N−1`, evenly spaced at pitch 150, and
symmetric around zero (`offset(N−1−i) = −offset(i)`); the character list
has exactly `N` entries. -/
theorem character_offsets_spacing_symmetry (Panel : FStoryboardPanel)
    (h : 1 ≤ Panel.NumCharacters) :
    (∀ i : Nat, (i : Int) < Panel.NumCharacters →
      (charLocation Panel i).y - (sceneCenter Panel).y
        = (i : ℚ) * 150 - ((Panel.NumCharacters : ℚ) - 1) * (150 / 2)) ∧
    (∀ i : Nat, ((i : Int) + 1) < Panel.NumCharacters →
      ((charLocation Panel (i + 1)).y - (sceneCenter Panel).y)
        - ((charLocation Panel i).y - (sceneCenter Panel).y) = 150) ∧
    (∀ i : Nat, (i : Int) < Panel.NumCharacters →
      (charLocation Panel (Panel.NumCharacters.toNat - 1 - i)).y - (sceneCenter Panel).y
        = -((charLocation Panel i).y - (sceneCenter Panel).y)) ∧
    (charLocations Panel).length = Panel.NumCharacters.toNat := by
  refine ⟨?_, ?_, ?_, ?_⟩
  · intro i _
    rw [charLocation_offset]
    ring
  · intro i _
    rw [charLocation_offset, charLocation_offset]
    push_cast
    ring
  · intro i hi
    rw [charLocation_offset, charLocation_offset]
    have h1 : 1 ≤ Panel.NumCharacters.toNat := by omega
    have h2 : i ≤ Panel.NumCharacters.toNat - 1 := by omega
    have h3 : ((Panel.NumCharacters.toNat : ℚ)) = (Panel.NumCharacters : ℚ) := by
      exact_mod_cast congrArg (Int.cast : Int → ℚ) (Int.toNat_of_nonneg (by omega))
    rw [Nat.cast_sub h2, Nat.cast_sub h1, h3]
    ring
  · simp [charLocations]

/-- Witness for C4 at a panel with three characters. -/
theorem character_offsets_spacing_symmetry_witness :
    (charLocation ⟨"", 0, "", 3, [], "", ""⟩ 2).y
        - (sceneCenter ⟨"", 0, "", 3, [], "", ""⟩).y
      = -((charLocation ⟨"", 0, "", 3, [], "", ""⟩ 0).y
        - (sceneCenter ⟨"", 0, "", 3, [], "", ""⟩).y) :=
  (character_offsets_spacing_symmetry ⟨"", 0, "", 3, [], "", ""⟩ (by decide)).2.2.1
    0 (by decide)

/-- C5: the scene center depends only on the panel index, advances by the
fixed pitch 2000 along the x axis when the index increases by 1 (strictly
increasing), and distinct indices give distinct centers. -/
theorem scene_center_by_index (p q : FStoryboardPanel) :
    sceneCenter p = ⟨(p.Index : ℚ) * 2000, 0, 0⟩ ∧
    (p.Index = q.Index → sceneCenter p = sceneCenter q) ∧
    (q.Index = p.Index + 1 →
      (sceneCenter q).x = (sceneCenter p).x + 2000 ∧
      (sceneCenter p).x < (sceneCenter q).x) ∧
    (p.Index ≠ q.Index → sceneCenter p ≠ sceneCenter q) := by
  refine ⟨rfl, ?_, ?_, ?_⟩
  · intro hpq
    simp [sceneCenter, hpq]
  · intro hq
    constructor
    · simp only [sceneCenter, hq]
      push_cast
      ring
    · simp only [sceneCenter, hq]
      push_cast
      linarith
  · intro hne heq
    apply hne
    have hx : ((p.Index : ℚ)) * 2000 = (q.Index : ℚ) * 2000 :=
      congrArg FVector.x heq
    have : (p.Index : ℚ) = (q.Index : ℚ) := by linarith
    exact_mod_cast this

/-- Witness for C5 at panel indices 0 and 1. -/
theorem scene_center_by_index_witness :
    (sceneCenter ⟨"", 0, "", 0, [], "", ""⟩).x
        < (sceneCenter ⟨"", 1, "", 0, [], "", ""⟩).x ∧
    sceneCenter ⟨"", 0, "", 0, [], "", ""⟩ ≠ sceneCenter ⟨"", 1, "", 0, [], "", ""⟩ :=
  ⟨((scene_center_by_index ⟨"", 0, "", 0, [], "", ""⟩
      ⟨"", 1, "", 0, [], "", ""⟩).2.2.1 (by decide)).2,
   (scene_center_by_index ⟨"", 0, "", 0, [], "", ""⟩
      ⟨"", 1, "", 0, [], "", ""⟩).2.2.2 (by decide)⟩

/-- C9: the camera is always created with focal length 50; its location is
the scene center offset by `-distance` along x and `+160` along z, and it
faces the scene center (facing vector `center - location = (distance, 0, -160)`). -/
theorem camera_focal_length_and_placement (Panel : FStoryboardPanel) (rng : RandSource) :
    (createSceneFromPanel Panel rng).focalLength = 50 ∧
    (createSceneFromPanel Panel rng).camLocation
      = sceneCenter Panel + ⟨-(cameraDistance Panel.ShotType), 0, 160⟩ ∧
    (createSceneFromPanel Panel rng).camFacing
      = sceneCenter Panel - (createSceneFromPanel Panel rng).camLocation ∧
    (createSceneFromPanel Panel rng).camFacing
      = ⟨cameraDistance Panel.ShotType, 0, -160⟩ := by
  refine ⟨rfl, rfl, rfl, ?_⟩
  simp only [createSceneFromPanel, cameraFacing, cameraLocation, sceneCenter,
    FVector.add_def, FVector.sub_def, FVector.mk.injEq]
  refine ⟨by ring, by ring, by ring⟩

/-- C10: `SetupLighting` spawns exactly one point light, at the fixed
location `(-500, -500, 500)` independent of its inputs, with applied
intensity equal to the resolved intensity times 1000 and the resolved
colour applied unscaled. -/
theorem lighting_single_spawn (Mood TimeOfDay : String) :
    setupLighting Mood TimeOfDay
      = [⟨⟨-500, -500, 500⟩,
          (resolveLighting Mood TimeOfDay).intensity * 1000,
          (resolveLighting Mood TimeOfDay).color⟩] :=
  rfl

/-- A random source that always returns the lower bound; valid. -/
def rngLo : RandSource := fun _ lo _ => lo

/-- A random source that always returns the upper bound; valid. -/
def rngHi : RandSource := fun _ _ hi => hi

/-- A concrete panel with a single object, used as test input. -/
def onePanelOneObject : FStoryboardPanel := ⟨"", 0, "", 0, ["crate"], "", ""⟩

/-- C3 counterexample: two runs of the scene resolution on the identical
panel, drawing in-range values from the ambient random generator, resolve
different object placement locations — the resolved parameters are not
identical across runs. -/
theorem scene_resolution_not_run_independent :
    ValidRand rngLo ∧ ValidRand rngHi ∧
    createSceneFromPanel onePanelOneObject rngLo
      ≠ createSceneFromPanel onePanelOneObject rngHi := by
  refine ⟨fun k lo hi h => ⟨le_refl lo, h⟩, fun k lo hi h => ⟨h, le_refl hi⟩, ?_⟩
  intro heq
  have hx : (createSceneFromPanel onePanelOneObject rngLo).objLocations
      = (createSceneFromPanel onePanelOneObject rngHi).objLocations :=
    congrArg ResolvedScene.objLocations heq
  norm_num [createSceneFromPanel, objectLocations, objectLocation, onePanelOneObject,
    rngLo, rngHi, sceneCenter, FVector.add_def, List.range_succ, FVector.mk.injEq] at hx

/-- C3 amended: two runs on the identical panel agree on every resolved
parameter except the randomized object placements — scene center, character
locations, camera distance, location and facing, focal length, and the
spawned light — and agree on the object placements too whenever the random
draws coincide. -/
theorem scene_resolution_deterministic_except_objects
    (Panel : FStoryboardPanel) (rng1 rng2 : RandSource) :
    (createSceneFromPanel Panel rng1).center = (createSceneFromPanel Panel rng2).center ∧
    (createSceneFromPanel Panel rng1).characterLocations
      = (createSceneFromPanel Panel rng2).characterLocations ∧
    (createSceneFromPanel Panel rng1).camDistance
      = (createSceneFromPanel Panel rng2).camDistance ∧
    (createSceneFromPanel Panel rng1).camLocation
      = (createSceneFromPanel Panel rng2).camLocation ∧
    (createSceneFromPanel Panel rng1).camFacing
      = (createSceneFromPanel Panel rng2).camFacing ∧
    (createSceneFromPanel Panel rng1).focalLength
      = (createSceneFromPanel Panel rng2).focalLength ∧
    (createSceneFromPanel Panel rng1).lights
      = (createSceneFromPanel Panel rng2).lights ∧
    ((∀ k lo hi, rng1 k lo hi = rng2 k lo hi) →
      createSceneFromPanel Panel rng1 = createSceneFromPanel Panel rng2) := by
  refine ⟨rfl, rfl, rfl, rfl, rfl, rfl, rfl, ?_⟩
  intro h
  have hr : rng1 = rng2 := funext fun k => funext fun lo => funext fun hi => h k lo hi
  rw [hr]

/-- Witness for the amended C3: identical draws give identical scenes. -/
theorem scene_resolution_deterministic_except_objects_witness :
    createSceneFromPanel onePanelOneObject rngLo
      = createSceneFromPanel onePanelOneObject rngLo :=
  (scene_resolution_deterministic_except_objects onePanelOneObject rngLo rngLo).2.2.2.2.2.2.2
    (fun _ _ _ => rfl)

/-- C8: with every random draw in its inclusive bounds, each object's
location offset from the scene center lies in `[-500, 500]` on both
horizontal axes (x and y) and is exactly 0 vertically (z). -/
theorem object_placement_in_bounding_square (Panel : FStoryboardPanel)
    (rng : RandSource) (hrng : ValidRand rng) :
    ∀ loc ∈ (createSceneFromPanel Panel rng).objLocations,
      -500 ≤ loc.x - (sceneCenter Panel).x ∧ loc.x - (sceneCenter Panel).x ≤ 500 ∧
      -500 ≤ loc.y - (sceneCenter Panel).y ∧ loc.y - (sceneCenter Panel).y ≤ 500 ∧
      loc.z - (sceneCenter Panel).z = 0 := by
  intro loc hloc
  simp only [createSceneFromPanel, objectLocations, List.mem_map, List.mem_range] at hloc
  obtain ⟨j, _, rfl⟩ := hloc
  obtain ⟨hx1, hx2⟩ := hrng (2 * j) (-500) 500 (by norm_num)
  obtain ⟨hy1, hy2⟩ := hrng (2 * j + 1) (-500) 500 (by norm_num)
  have ex : (objectLocation Panel rng j).x - (sceneCenter Panel).x
      = ((rng (2 * j) (-500) 500 : Int) : ℚ) := by
    simp [objectLocation, FVector.add_def]
  have ey : (objectLocation Panel rng j).y - (sceneCenter Panel).y
      = ((rng (2 * j + 1) (-500) 500 : Int) : ℚ) := by
    simp [objectLocation, sceneCenter, FVector.add_def]
  have ez : (objectLocation Panel rng j).z - (sceneCenter Panel).z = 0 := by
    simp [objectLocation, sceneCenter, FVector.add_def]
  rw [ex, ey, ez]
  refine ⟨by exact_mod_cast hx1, by exact_mod_cast hx2,
    by exact_mod_cast hy1, by exact_mod_cast hy2, rfl⟩

/-- Witness for C8 at the single-object panel with the lower-bound source. -/
theorem object_placement_in_bounding_square_witness :
    -500 ≤ (objectLocation onePanelOneObject rngLo 0).x
        - (sceneCenter onePanelOneObject).x :=
  (object_placement_in_bounding_square onePanelOneObject rngLo
    (fun _ lo _ h => ⟨le_refl lo, h⟩)
    (objectLocation onePanelOneObject rngLo 0)
    (by simp [createSceneFromPanel, objectLocations, onePanelOneObject])).1

end StoryboardTo3D
